/-
Verification of the agent reasoning module of Enviro-Comply
(src/agents/reasoning.py): chain-of-thought reasoning chains, the
regulation-relevance / gap-severity / remediation-cost reasoners, and the
confidence calibrator.

Modelling conventions:
* Python floats are embedded as exact rationals (ℚ); all the constants in
  the source (0.7, 0.85, ...) are decimal literals, and every claim is
  stated in exact arithmetic.
* Python strings are Lean `String`s; the `in` substring test, `.lower()`
  and `.upper()` are implemented character-wise below.
* Presentation-only fields (the f-string `content`, `evidence` lists,
  timestamps and durations) affect no claim and are elided from the
  embedded records; the semantically used fields (step numbers, step
  types, confidences, final answer/confidence) are kept.
* `regulatory_deadline` is a date string parsed with
  `datetime.fromisoformat` inside a `try/except`.  The embedding keeps the
  parse abstract: the field is `Option (Option Int)` — `none` for a missing
  key, `some none` for a present but unparseable string (the `except` arm),
  and `some (some d)` for a string parsing to a date `d` days away
  (`days_until` in the source).
-/
import Mathlib

/-! ## String helpers (Python `in`, `.lower()`, `.upper()`) -/

/-- `startsWithChars n h` : the char list `n` is a prefix of `h`. -/
def startsWithChars : List Char → List Char → Bool
  | [], _ => true
  | _ :: _, [] => false
  | a :: as, b :: bs => a == b && startsWithChars as bs

/-- `occursIn n h` : the char list `n` occurs contiguously inside `h`
(Python's `n in h` on strings). -/
def occursIn (needle : List Char) : List Char → Bool
  | [] => startsWithChars needle []
  | c :: t => startsWithChars needle (c :: t) || occursIn needle t

/-- Python `needle in hay` for strings. -/
def strContains (hay needle : String) : Bool :=
  occursIn needle.data hay.data

/-- Python `str.lower()` (ASCII, which covers every string the module
compares). -/
def strLower (s : String) : String :=
  ⟨s.data.map Char.toLower⟩

/-- Python `str.upper()`. -/
def strUpper (s : String) : String :=
  ⟨s.data.map Char.toUpper⟩

/-! ## Reasoning chains (`ReasoningStep`, `ReasoningChain`) -/

/-- `ReasoningType` enum of reasoning.py. -/
inductive ReasoningType where
  | observation
  | analysis
  | inference
  | decision
  | validation
  deriving DecidableEq, Repr

/-- The `.value` string of a `ReasoningType` member. -/
def ReasoningType.value : ReasoningType → String
  | .observation => "observation"
  | .analysis => "analysis"
  | .inference => "inference"
  | .decision => "decision"
  | .validation => "validation"

/-- A step of a reasoning chain (presentation-only `content`, `evidence`
and `timestamp` elided). -/
structure ReasoningStep where
  step_number : Nat
  step_type : ReasoningType
  confidence : ℚ
  deriving DecidableEq, Repr

/-- A reasoning chain (timestamps elided). -/
structure ReasoningChain where
  task_id : String
  steps : List ReasoningStep
  final_answer : Option String
  final_confidence : ℚ
  deriving DecidableEq, Repr

/-- `ReasoningChain.add_step`: appends a step numbered `len(steps) + 1`. -/
def ReasoningChain.add_step (c : ReasoningChain) (t : ReasoningType)
    (confidence : ℚ) : ReasoningChain :=
  { c with
    steps := c.steps ++
      [{ step_number := c.steps.length + 1, step_type := t,
         confidence := confidence }] }

/-- `ReasoningChain.complete`: records the final answer and confidence. -/
def ReasoningChain.complete (c : ReasoningChain) (answer : String)
    (confidence : ℚ) : ReasoningChain :=
  { c with final_answer := some answer, final_confidence := confidence }

/-- The dictionary produced for one step by `ReasoningStep.to_dict`. -/
structure StepDict where
  step : Nat
  type : String
  confidence : ℚ
  deriving DecidableEq, Repr

/-- `ReasoningStep.to_dict`. -/
def ReasoningStep.to_dict (s : ReasoningStep) : StepDict :=
  { step := s.step_number, type := s.step_type.value,
    confidence := s.confidence }

/-- The dictionary produced by `ReasoningChain.to_dict` (timestamp and
duration keys elided). -/
structure ChainDict where
  task_id : String
  steps : List StepDict
  final_answer : Option String
  final_confidence : ℚ
  deriving DecidableEq, Repr

/-- `ReasoningChain.to_dict`. -/
def ReasoningChain.to_dict (c : ReasoningChain) : ChainDict :=
  { task_id := c.task_id,
    steps := c.steps.map ReasoningStep.to_dict,
    final_answer := c.final_answer,
    final_confidence := c.final_confidence }

/-- `ChainOfThoughtReasoner.start_chain`: a fresh chain with no steps
(the reasoner's own `chains` list plays no role in any claim). -/
def start_chain (task_id : String) : ReasoningChain :=
  { task_id := task_id, steps := [], final_answer := none,
    final_confidence := 0 }

/-- Replay a sequence of `add_step` calls (step type and confidence of
each call) on a chain. -/
def applySteps (c : ReasoningChain) (l : List (ReasoningType × ℚ)) :
    ReasoningChain :=
  l.foldl (fun ch p => ch.add_step p.1 p.2) c

/-! ## Input records -/

/-- A regulation record, with the keys read by
`reason_about_regulation_relevance` (`.get(..., "")` on a missing key is
the empty string, so the fields are plain strings). -/
structure Regulation where
  id : String
  title : String
  description : String
  citation : String
  deriving DecidableEq, Repr

/-- A facility record, with the keys read by `reason_about_gap_severity`
(`is_major_source` is used only for Python truthiness). -/
structure Facility where
  name : String
  is_major_source : Bool
  deriving DecidableEq, Repr

/-- A compliance-gap record, with the keys the reasoners read.
`regulatory_deadline`: `none` = key absent, `some none` = present but
unparseable date string, `some (some d)` = parses to a date `d` days from
now (`days_until`). -/
structure Gap where
  id : String
  title : String
  description : String
  gap_type : String
  regulation_id : String
  regulatory_deadline : Option (Option Int)
  deriving DecidableEq, Repr

/-- A historical gap handed to `reason_about_remediation_cost` as
`similar_gaps`; only its `actual_cost` / `estimated_cost` keys are read
(`none` = key absent / `None`). -/
structure SimilarGap where
  actual_cost : Option ℚ
  estimated_cost : Option ℚ
  deriving DecidableEq, Repr

/-! ## `reason_about_regulation_relevance` -/

/-- The O&G keyword list of `reason_about_regulation_relevance`. -/
def og_keywords : List String :=
  ["oil", "gas", "petroleum", "natural gas", "crude oil",
   "wellsite", "wellhead", "compressor", "gathering",
   "processing", "transmission", "storage tank", "pneumatic",
   "fugitive emissions", "ldar", "methane", "voc"]

/-- `found_keywords`: the O&G keywords occurring in the lower-cased
`f"{title} {description}"`. -/
def found_keywords (reg : Regulation) : List String :=
  let text_to_search :=
    strLower reg.title ++ " " ++ strLower reg.description
  og_keywords.filter (fun kw => strContains text_to_search kw)

/-- `keyword_confidence = min(len(found_keywords) / 3, 1.0)`. -/
def keyword_confidence (reg : Regulation) : ℚ :=
  min (((found_keywords reg).length : ℚ) / 3) 1

/-- `cfr_relevance` from the CFR-citation analysis (0.0 when no branch
fires). -/
def cfr_relevance (reg : Regulation) : ℚ :=
  if strContains reg.citation "40 CFR 60" then 0.8
  else if strContains reg.citation "40 CFR 63" then 0.7
  else if strContains reg.citation "40 CFR 98" then 0.6
  else 0

/-- `combined_score = (keyword_confidence * 0.6) + (cfr_relevance * 0.4)`. -/
def combined_score (reg : Regulation) : ℚ :=
  keyword_confidence reg * 0.6 + cfr_relevance reg * 0.4

/-- `reason_about_regulation_relevance`, returning
`(is_relevant, combined_score, chain)`. -/
def reason_about_regulation_relevance (reg : Regulation) :
    Bool × ℚ × ReasoningChain :=
  let chain := start_chain ("rel_" ++ reg.id)
  let chain := chain.add_step .observation 1
  let kc := keyword_confidence reg
  let chain := chain.add_step .analysis kc
  let cfr := cfr_relevance reg
  let chain := if 0 < cfr then chain.add_step .analysis cfr else chain
  let score := combined_score reg
  let is_relevant : Bool := decide ((0.3 : ℚ) < score)
  let chain := chain.add_step .inference score
  let chain :=
    if is_relevant && decide (score < (0.5 : ℚ)) then
      chain.add_step .validation score
    else chain
  let chain :=
    chain.complete (if is_relevant then "RELEVANT" else "NOT RELEVANT")
      score
  (is_relevant, score, chain)

/-! ## `reason_about_gap_severity` -/

/-- Whether the deadline key is present and its date string parses
(i.e. the `try` body runs to completion). -/
def hasParsedDeadline (gap : Gap) : Bool :=
  match gap.regulatory_deadline with
  | some (some _) => true
  | _ => false

/-- The deadline-proximity factor `(deadline_severity,
deadline_confidence)`: `("low", 0.5)` when the key is missing or the date
string fails to parse (the `except: pass` arm), otherwise graded by
`days_until`. -/
def deadlineAnalysis (gap : Gap) : String × ℚ :=
  match gap.regulatory_deadline with
  | some (some days_until) =>
    if days_until < 0 then ("critical", 0.95)
    else if days_until < 30 then ("critical", 0.9)
    else if days_until < 90 then ("high", 0.8)
    else if days_until < 180 then ("medium", 0.7)
    else ("low", 0.6)
  | _ => ("low", 0.5)

/-- The enforcement-risk factor `(enforcement_risk,
enforcement_confidence)`: `("high", 0.8)` when an enforcement keyword
occurs in the lower-cased `regulation_id`, overridden to `("high", 0.85)`
when `"oooo"` occurs in it or `"methane"` in the lower-cased title, else
`("medium", 0.5)`. -/
def enforcementAnalysis (gap : Gap) : String × ℚ :=
  let regulation_id := strLower gap.regulation_id
  let base :=
    if (["nsps", "neshap", "title v", "ghg reporting", "ldar"]).any
        (fun kw => strContains regulation_id kw) then
      (("high" : String), (0.8 : ℚ))
    else (("medium" : String), (0.5 : ℚ))
  if strContains regulation_id "oooo" ||
      strContains (strLower gap.title) "methane" then
    ("high", 0.85)
  else base

/-- The facility factor: `"high"` for a major source, else `"medium"`. -/
def facilityRisk (facility : Facility) : String :=
  if facility.is_major_source then "high" else "medium"

/-- `severity_scores.get(f, 2)`. -/
def severity_scores (s : String) : ℚ :=
  if s = "critical" then 4
  else if s = "high" then 3
  else if s = "medium" then 2
  else if s = "low" then 1
  else 2

/-- `avg_score`: mean of the three factor scores. -/
def avg_score (gap : Gap) (facility : Facility) : ℚ :=
  (severity_scores (deadlineAnalysis gap).1 +
   severity_scores (enforcementAnalysis gap).1 +
   severity_scores (facilityRisk facility)) / 3

/-- `final_severity` from the average score thresholds. -/
def severityOfScore (avg : ℚ) : String :=
  if 3.5 ≤ avg then "critical"
  else if 2.5 ≤ avg then "high"
  else if 1.5 ≤ avg then "medium"
  else "low"

/-- `reason_about_gap_severity`, returning
`(final_severity, final_confidence, chain)`. -/
def reason_about_gap_severity (gap : Gap) (facility : Facility) :
    String × ℚ × ReasoningChain :=
  let chain := start_chain ("sev_" ++ gap.id)
  let chain := chain.add_step .observation 1
  let ds := deadlineAnalysis gap
  let chain :=
    if hasParsedDeadline gap then chain.add_step .analysis ds.2 else chain
  let es := enforcementAnalysis gap
  let chain := chain.add_step .analysis es.2
  let chain :=
    if facility.is_major_source then chain.add_step .analysis 0.85
    else chain
  let avg := avg_score gap facility
  let final_severity := severityOfScore avg
  let final_confidence := (ds.2 + es.2 + 0.7) / 3
  let chain := chain.add_step .inference final_confidence
  let chain := chain.add_step .validation final_confidence
  let chain := chain.complete (strUpper final_severity) final_confidence
  (final_severity, final_confidence, chain)

/-! ## `reason_about_remediation_cost`

The quantity multiplier comes from
`re.findall(r'\b(\d+)\s*(?:controller|tank|vessel|source|unit)', description.lower())`
followed by `int(numbers[0])`.  The regex is embedded directly: a match is
a maximal digit run starting at a word boundary, followed by whitespace
and one of the five unit words; the leftmost match wins.  (`\s*` is
greedy and the unit words contain no whitespace, and a shorter digit run
would have to be followed immediately by a digit, which no unit word
starts with, so backtracking never changes the outcome.) -/

/-- ASCII digit test (`\d`). -/
def isDigitChar (c : Char) : Bool := '0' ≤ c && c ≤ '9'

/-- Word character (`\w`, which is what `\b` is defined from). -/
def isWordChar (c : Char) : Bool :=
  isDigitChar c || ('a' ≤ c && c ≤ 'z') || ('A' ≤ c && c ≤ 'Z') || c = '_'

/-- Whitespace (`\s`, ASCII). -/
def isSpaceChar (c : Char) : Bool :=
  c = ' ' || c = '\t' || c = '\n' || c = '\r' || c = '\x0b' || c = '\x0c'

/-- The unit words of the multiplier regex alternation. -/
def unitWords : List (List Char) :=
  ["controller".data, "tank".data, "vessel".data, "source".data,
   "unit".data]

/-- Digits-to-number (`int` on the captured group). -/
def digitsToNat (l : List Char) : Nat :=
  l.foldl (fun n c => 10 * n + (c.toNat - 48)) 0

/-- Try the regex at the current position (word boundary already
ensured): a nonempty digit run, then whitespace, then a unit word. -/
def matchQuantityAt (l : List Char) : Option Nat :=
  let ds := l.takeWhile isDigitChar
  if ds.isEmpty then none
  else
    let rest := (l.drop ds.length).dropWhile isSpaceChar
    if unitWords.any (fun w => startsWithChars w rest) then
      some (digitsToNat ds)
    else none

/-- Leftmost regex match over the text.  `prevWord` records whether the
previous character was a word character (`\b` before a digit holds iff it
was not, or we are at the start). -/
def findQuantity (prevWord : Bool) : List Char → Option Nat
  | [] => none
  | c :: t =>
    match if !prevWord && isDigitChar c then matchQuantityAt (c :: t)
          else none with
    | some n => some n
    | none => findQuantity (isWordChar c) t

/-- `multiplier`: the first captured number, default 1 when the regex
finds nothing. -/
def multiplierOf (gap : Gap) : Nat :=
  (findQuantity false (strLower gap.description).data).getD 1

/-- The `cost_estimates` table, in its Python insertion (= iteration)
order. -/
def cost_estimates : List (String × ℚ × ℚ) :=
  [("ldar", 3000, 8000),
   ("pneumatic", 500, 2000),
   ("storage", 25000, 75000),
   ("permit", 10000, 25000),
   ("dehydrator", 40000, 80000),
   ("monitoring", 5000, 15000),
   ("documentation", 2000, 5000)]

/-- The `for … else` keyword scan over the lower-cased title:
`(gap_type, base_low, base_high)`, defaulting to
`("unknown", 5000, 20000)`. -/
def costBase (gap : Gap) : String × ℚ × ℚ :=
  match cost_estimates.find?
      (fun p => strContains (strLower gap.title) p.1) with
  | some r => r
  | none => ("unknown", 5000, 20000)

/-- `gap_type` after the keyword scan. -/
def gapTypeOf (gap : Gap) : String := (costBase gap).1

/-- Python truthiness of an optional cost (`None` and `0` are falsy). -/
def truthyCost : Option ℚ → Bool
  | none => false
  | some x => decide (x ≠ 0)

/-- `g.get("actual_cost") or g.get("estimated_cost", 0)`. -/
def histValue (g : SimilarGap) : ℚ :=
  if truthyCost g.actual_cost then g.actual_cost.getD 0
  else g.estimated_cost.getD 0

/-- `similar_costs`: the comprehension filtering gaps with a truthy
`actual_cost` or `estimated_cost`. -/
def similarCosts (similar_gaps : List SimilarGap) : List ℚ :=
  (similar_gaps.filter
      (fun g => truthyCost g.actual_cost || truthyCost g.estimated_cost)
    ).map histValue

/-- `(base_low, base_high)` after the optional historical blend
`base_low = (base_low + avg*0.8)/2`, `base_high = (base_high + avg*1.2)/2`
(applied only when some similar costs exist). -/
def blendedBase (gap : Gap) (similar_gaps : List SimilarGap) : ℚ × ℚ :=
  let lo := (costBase gap).2.1
  let hi := (costBase gap).2.2
  let cs := similarCosts similar_gaps
  if cs.isEmpty then (lo, hi)
  else
    let avg_similar := cs.sum / (cs.length : ℚ)
    ((lo + avg_similar * 0.8) / 2, (hi + avg_similar * 1.2) / 2)

/-- `cost_range = (base_low * multiplier, base_high * multiplier)`. -/
def costRange (gap : Gap) (similar_gaps : List SimilarGap) : ℚ × ℚ :=
  ((blendedBase gap similar_gaps).1 * (multiplierOf gap : ℚ),
   (blendedBase gap similar_gaps).2 * (multiplierOf gap : ℚ))

/-- The returned confidence: base 0.7, `+0.1` when a cost keyword matched
the title, `+0.1` when `similar_gaps` is truthy (non-empty), `−0.05` when
`multiplier > 1`; no clamping. -/
def cost_confidence (gap : Gap) (similar_gaps : List SimilarGap) : ℚ :=
  let c : ℚ := 0.7
  let c := if gapTypeOf gap ≠ "unknown" then c + 0.1 else c
  let c := if ¬ similar_gaps.isEmpty then c + 0.1 else c
  if 1 < multiplierOf gap then c - 0.05 else c

/-- `reason_about_remediation_cost`, returning
`(estimated_cost, confidence, chain)`.  The `answer` f-string's number
formatting is elided (`toString` of the exact rational). -/
def reason_about_remediation_cost (gap : Gap)
    (similar_gaps : List SimilarGap) : ℚ × ℚ × ReasoningChain :=
  let chain := start_chain ("cost_" ++ gap.id)
  let chain :=
    chain.add_step .observation
      (if gapTypeOf gap ≠ "unknown" then 0.8 else 0.5)
  let chain :=
    if (findQuantity false (strLower gap.description).data).isSome then
      chain.add_step .analysis 0.75
    else chain
  let chain :=
    if ¬ (similarCosts similar_gaps).isEmpty then
      chain.add_step .analysis 0.85
    else chain
  let lo := (blendedBase gap similar_gaps).1
  let hi := (blendedBase gap similar_gaps).2
  let estimated_cost := ((lo + hi) / 2) * (multiplierOf gap : ℚ)
  let confidence := cost_confidence gap similar_gaps
  let chain := chain.add_step .inference confidence
  let chain := chain.complete ("$" ++ toString estimated_cost) confidence
  (estimated_cost, confidence, chain)

/-! ## `ConfidenceCalibrator` -/

/-- A prediction record of the calibrator (timestamp elided; the
predicted/actual values are `Any`, embedded polymorphically). -/
structure Prediction (α : Type) where
  id : String
  predicted : α
  confidence : ℚ
  category : String
  actual : Option α
  correct : Option Bool
  deriving DecidableEq, Repr

/-- The calibrator's state. -/
structure ConfidenceCalibrator (α : Type) where
  predictions : List (Prediction α)
  calibration_factor : ℚ
  deriving DecidableEq, Repr

/-- `ConfidenceCalibrator()`. -/
def ConfidenceCalibrator.init (α : Type) : ConfidenceCalibrator α :=
  { predictions := [], calibration_factor := 1 }

/-- `record_prediction`: appends an unresolved record. -/
def ConfidenceCalibrator.record_prediction (c : ConfidenceCalibrator α)
    (prediction_id : String) (predicted_value : α) (confidence : ℚ)
    (category : String) : ConfidenceCalibrator α :=
  { c with
    predictions := c.predictions ++
      [{ id := prediction_id, predicted := predicted_value,
         confidence := confidence, category := category,
         actual := none, correct := none }] }

/-- The `for … break` of `record_outcome` over the prediction list:
updates the first record whose `id` matches, leaves the rest alone. -/
def recordOutcomeList [DecidableEq α] (prediction_id : String)
    (actual_value : α) : List (Prediction α) → List (Prediction α)
  | [] => []
  | p :: ps =>
    if p.id = prediction_id then
      { p with actual := some actual_value,
               correct := some (decide (p.predicted = actual_value)) } :: ps
    else p :: recordOutcomeList prediction_id actual_value ps

/-- `record_outcome`. -/
def ConfidenceCalibrator.record_outcome [DecidableEq α]
    (c : ConfidenceCalibrator α) (prediction_id : String)
    (actual_value : α) : ConfidenceCalibrator α :=
  { c with
    predictions := recordOutcomeList prediction_id actual_value
      c.predictions }

/-- The dictionary returned by `calculate_calibration`; the per-bucket
keys exist only when the bucket is non-empty, hence `Option`, and
`accuracy` / `avg_confidence` only when some prediction is resolved. -/
structure CalibrationResult where
  samples : Nat
  high_accuracy : Option ℚ
  high_avg_confidence : Option ℚ
  high_calibration : Option ℚ
  medium_accuracy : Option ℚ
  medium_avg_confidence : Option ℚ
  medium_calibration : Option ℚ
  low_accuracy : Option ℚ
  low_avg_confidence : Option ℚ
  low_calibration : Option ℚ
  accuracy : Option ℚ
  avg_confidence : Option ℚ
  calibration_factor : ℚ
  deriving DecidableEq, Repr

/-- The resolved records (`p["correct"] is not None`). -/
def resolvedOf (c : ConfidenceCalibrator α) : List (Prediction α) :=
  c.predictions.filter (fun p => p.correct.isSome)

/-- Share of records whose `correct` flag is truthy. -/
def bucketAccuracy (b : List (Prediction α)) : ℚ :=
  (b.countP (fun p => p.correct == some true) : ℚ) / (b.length : ℚ)

/-- Mean confidence of a bucket. -/
def bucketAvgConfidence (b : List (Prediction α)) : ℚ :=
  (b.map Prediction.confidence).sum / (b.length : ℚ)

/-- `accuracy / avg_confidence if avg_confidence > 0 else 1.0`. -/
def bucketCalibration (b : List (Prediction α)) : ℚ :=
  if 0 < bucketAvgConfidence b then bucketAccuracy b / bucketAvgConfidence b
  else 1

/-- The empty-input result
`{"calibration_factor": 1.0, "accuracy": None, "samples": 0}` (absent
keys are `none`). -/
def emptyCalibrationResult : CalibrationResult :=
  { samples := 0, high_accuracy := none, high_avg_confidence := none,
    high_calibration := none, medium_accuracy := none,
    medium_avg_confidence := none, medium_calibration := none,
    low_accuracy := none, low_avg_confidence := none,
    low_calibration := none, accuracy := none, avg_confidence := none,
    calibration_factor := 1 }

/-- `calculate_calibration`: returns the statistics dictionary and the
calibrator with its stored `calibration_factor` updated (unchanged on the
early return). -/
def ConfidenceCalibrator.calculate_calibration
    (c : ConfidenceCalibrator α) :
    CalibrationResult × ConfidenceCalibrator α :=
  let resolved := resolvedOf c
  if resolved.isEmpty then (emptyCalibrationResult, c)
  else
    let high := resolved.filter fun p => decide ((0.8 : ℚ) ≤ p.confidence)
    let medium := resolved.filter fun p =>
      decide ((0.5 : ℚ) ≤ p.confidence) && decide (p.confidence < (0.8 : ℚ))
    let low := resolved.filter fun p => decide (p.confidence < (0.5 : ℚ))
    let factor := bucketCalibration resolved
    ({ samples := resolved.length,
       high_accuracy :=
         if high.isEmpty then none else some (bucketAccuracy high),
       high_avg_confidence :=
         if high.isEmpty then none else some (bucketAvgConfidence high),
       high_calibration :=
         if high.isEmpty then none else some (bucketCalibration high),
       medium_accuracy :=
         if medium.isEmpty then none else some (bucketAccuracy medium),
       medium_avg_confidence :=
         if medium.isEmpty then none else some (bucketAvgConfidence medium),
       medium_calibration :=
         if medium.isEmpty then none else some (bucketCalibration medium),
       low_accuracy :=
         if low.isEmpty then none else some (bucketAccuracy low),
       low_avg_confidence :=
         if low.isEmpty then none else some (bucketAvgConfidence low),
       low_calibration :=
         if low.isEmpty then none else some (bucketCalibration low),
       accuracy := some (bucketAccuracy resolved),
       avg_confidence := some (bucketAvgConfidence resolved),
       calibration_factor := factor },
     { c with calibration_factor := factor })

/-- `adjust_confidence`: multiply by the stored factor and clamp to
`[0, 1]`. -/
def ConfidenceCalibrator.adjust_confidence (c : ConfidenceCalibrator α)
    (raw_confidence : ℚ) : ℚ :=
  max 0 (min 1 (raw_confidence * c.calibration_factor))

/-! ## Concrete example records used by the theorems -/

/-- A regulation with ≥ 3 O&G keywords in its text and a part-60
citation. -/
def exRegKw : Regulation :=
  { id := "r1", title := "Oil and Natural Gas Sector Methane Rule",
    description := "Standards for pneumatic controllers",
    citation := "40 CFR 60 Subpart OOOOb" }

/-- A gap with a deadline 10 days out and an `"ldar"` regulation id. -/
def exGapLdar : Gap :=
  { id := "g1", title := "Missing leak detection survey",
    description := "", gap_type := "monitoring",
    regulation_id := "EPA-LDAR-2024",
    regulatory_deadline := some (some 10) }

/-- A major-source facility. -/
def exFacMajor : Facility := { name := "Plant A", is_major_source := true }

/-- A non-major facility. -/
def exFacMinor : Facility := { name := "Plant B", is_major_source := false }

/-- A gap with an unparseable deadline string. -/
def exGapBadDate : Gap :=
  { id := "g4", title := "Permit renewal overdue",
    description := "", gap_type := "permit",
    regulation_id := "state-permit",
    regulatory_deadline := some none }

/-- The pneumatic-controllers gap of the cost example. -/
def exGapPneumatic : Gap :=
  { id := "g2", title := "Pneumatic controller retrofit required",
    description := "15 controllers need low-bleed retrofit",
    gap_type := "equipment", regulation_id := "EPA-OOOOb",
    regulatory_deadline := none }

/-- A gap matching no cost keyword and carrying no quantity. -/
def exGapPlain : Gap :=
  { id := "g3", title := "General recordkeeping gap",
    description := "paperwork incomplete", gap_type := "admin",
    regulation_id := "misc", regulatory_deadline := none }

/-- A similar-gap record with no cost information at all. -/
def exSimNoCost : SimilarGap := { actual_cost := none, estimated_cost := none }

/-- The calibrator of the calibration example: three resolved predictions
of confidence 0.9 with 2 of 3 correct. -/
def exCalib : ConfidenceCalibrator String :=
  ((((((ConfidenceCalibrator.init String).record_prediction
        "p1" "high" 0.9 "severity"
    ).record_prediction "p2" "high" 0.9 "severity"
    ).record_prediction "p3" "high" 0.9 "severity"
    ).record_outcome "p1" "high"
    ).record_outcome "p2" "high"
    ).record_outcome "p3" "medium"

/-- Count of validation steps in a chain. -/
def countValidationSteps (c : ReasoningChain) : Nat :=
  c.steps.countP (fun s => decide (s.step_type = ReasoningType.validation))

/-- A similar-gap record with a usable historical cost. -/
def exSimCost : SimilarGap := { actual_cost := some 1000, estimated_cost := none }

/-- An already-resolved prediction with id `"a"`. -/
def exPredA : Prediction String :=
  { id := "a", predicted := "x", confidence := 0.5, category := "cat",
    actual := none, correct := none }

/-- An already-resolved prediction with id `"b"` — `record_outcome`
updates it again even though it is resolved. -/
def exPredB : Prediction String :=
  { id := "b", predicted := "x", confidence := 0.5, category := "cat",
    actual := some "y", correct := some false }

/-! ## Helper lemmas -/

theorem applySteps_map_number (l : List (ReasoningType × ℚ)) :
    ∀ c : ReasoningChain,
      (applySteps c l).steps.map ReasoningStep.step_number =
        c.steps.map ReasoningStep.step_number ++
          List.range' (c.steps.length + 1) l.length := by
  induction l with
  | nil => intro c; simp [applySteps]
  | cons p t ih =>
    intro c
    have h1 : applySteps c (p :: t) = applySteps (c.add_step p.1 p.2) t :=
      rfl
    rw [h1, ih]
    simp [ReasoningChain.add_step, List.range'_succ]

theorem applySteps_length (l : List (ReasoningType × ℚ)) :
    ∀ c : ReasoningChain,
      (applySteps c l).steps.length = c.steps.length + l.length := by
  induction l with
  | nil => intro c; simp [applySteps]
  | cons p t ih =>
    intro c
    have h1 : applySteps c (p :: t) = applySteps (c.add_step p.1 p.2) t :=
      rfl
    rw [h1, ih]
    simp [ReasoningChain.add_step]
    omega

theorem deadline_score_bounds (g : Gap) :
    1 ≤ severity_scores (deadlineAnalysis g).1 ∧
    severity_scores (deadlineAnalysis g).1 ≤ 4 := by
  rcases hd : g.regulatory_deadline with _ | (_ | d)
  · simp [deadlineAnalysis, hd, severity_scores]
  · simp [deadlineAnalysis, hd, severity_scores]
  · simp only [deadlineAnalysis, hd]
    split_ifs <;> simp [severity_scores] <;> norm_num

theorem enforcement_score_bounds (g : Gap) :
    2 ≤ severity_scores (enforcementAnalysis g).1 ∧
    severity_scores (enforcementAnalysis g).1 ≤ 3 := by
  simp only [enforcementAnalysis]
  split_ifs <;> simp [severity_scores] <;> norm_num

theorem facility_score_bounds (f : Facility) :
    2 ≤ severity_scores (facilityRisk f) ∧
    severity_scores (facilityRisk f) ≤ 3 := by
  simp only [facilityRisk]
  split_ifs <;> simp [severity_scores] <;> norm_num

/-! ## Claim theorems -/

/-- C1: for every gap and facility, the final confidence of
`reason_about_gap_severity` is
`(deadline_confidence + enforcement_confidence + 0.7) / 3` — the facility
factor's own 0.85 step confidence is not averaged in, only the constant
0.7; and on the concrete example (deadline 10 days out → critical/0.9,
`"ldar"` regulation id → high/0.8, major-source facility → high) the
factor scores are 4, 3, 3, the average is 10/3, the severity is
`"high"` and the confidence is `(0.9 + 0.8 + 0.7)/3 = 0.8`. -/
theorem gap_severity_confidence_spec :
    (∀ (g : Gap) (f : Facility),
      (reason_about_gap_severity g f).2.1 =
        ((deadlineAnalysis g).2 + (enforcementAnalysis g).2 + 0.7) / 3) ∧
    deadlineAnalysis exGapLdar = ("critical", 0.9) ∧
    enforcementAnalysis exGapLdar = ("high", 0.8) ∧
    facilityRisk exFacMajor = "high" ∧
    severity_scores (deadlineAnalysis exGapLdar).1 = 4 ∧
    severity_scores (enforcementAnalysis exGapLdar).1 = 3 ∧
    severity_scores (facilityRisk exFacMajor) = 3 ∧
    avg_score exGapLdar exFacMajor = 10 / 3 ∧
    (reason_about_gap_severity exGapLdar exFacMajor).1 = "high" ∧
    (reason_about_gap_severity exGapLdar exFacMajor).2.1 = 0.8 := by
  have havg : avg_score exGapLdar exFacMajor = 10 / 3 := by
    have h : avg_score exGapLdar exFacMajor = ((4 : ℚ) + 3 + 3) / 3 := rfl
    rw [h]; norm_num
  have hsev : (reason_about_gap_severity exGapLdar exFacMajor).1 = "high" := by
    have h1 : (reason_about_gap_severity exGapLdar exFacMajor).1 =
        severityOfScore (avg_score exGapLdar exFacMajor) := rfl
    rw [h1, havg]
    simp only [severityOfScore]
    norm_num
  have hconf :
      (reason_about_gap_severity exGapLdar exFacMajor).2.1 = 0.8 := by
    have h1 : (reason_about_gap_severity exGapLdar exFacMajor).2.1 =
        ((0.9 : ℚ) + 0.8 + 0.7) / 3 := rfl
    rw [h1]; norm_num
  exact ⟨fun g f => rfl, rfl, rfl, rfl, rfl, rfl, rfl, havg, hsev, hconf⟩

/-- C3: the severity returned by `reason_about_gap_severity` is always
`"medium"` or `"high"` (never `"critical"`, never `"low"`), because the
three-factor average always lies in `[5/3, 10/3]`. -/
theorem gap_severity_range_spec (g : Gap) (f : Facility) :
    ((reason_about_gap_severity g f).1 = "medium" ∨
     (reason_about_gap_severity g f).1 = "high") ∧
    5 / 3 ≤ avg_score g f ∧ avg_score g f ≤ 10 / 3 := by
  obtain ⟨hd1, hd2⟩ := deadline_score_bounds g
  obtain ⟨he1, he2⟩ := enforcement_score_bounds g
  obtain ⟨hf1, hf2⟩ := facility_score_bounds f
  have havg1 : 5 / 3 ≤ avg_score g f := by unfold avg_score; linarith
  have havg2 : avg_score g f ≤ 10 / 3 := by unfold avg_score; linarith
  refine ⟨?_, havg1, havg2⟩
  have h1 : (reason_about_gap_severity g f).1 =
      severityOfScore (avg_score g f) := rfl
  rw [h1]
  unfold severityOfScore
  split_ifs with h2 h3 h4
  · exfalso
    have : (3.5 : ℚ) = 7 / 2 := by norm_num
    rw [this] at h2
    linarith
  · right; rfl
  · left; rfl
  · exfalso
    have : (1.5 : ℚ) = 3 / 2 := by norm_num
    rw [this] at h4
    exact h4 (by linarith)

/-- C7: a missing or unparseable `regulatory_deadline` cannot raise: the
deadline factor degrades to `("low", 0.5)`, and no deadline analysis step
is appended (the chain has 4 steps, or 5 for a major-source facility,
instead of 5 resp. 6). -/
theorem deadline_parse_failure_spec (g : Gap) (f : Facility)
    (h : g.regulatory_deadline = none ∨ g.regulatory_deadline = some none) :
    deadlineAnalysis g = ("low", 0.5) ∧
    hasParsedDeadline g = false ∧
    (reason_about_gap_severity g f).2.2.steps.length =
      (if f.is_major_source then 5 else 4) := by
  have hp : hasParsedDeadline g = false := by
    rcases h with h | h <;> simp [hasParsedDeadline, h]
  refine ⟨?_, hp, ?_⟩
  · rcases h with h | h <;> simp [deadlineAnalysis, h]
  · cases hmaj : f.is_major_source <;>
      simp [reason_about_gap_severity, hp, hmaj, ReasoningChain.add_step,
        ReasoningChain.complete, start_chain]

/-- Witness for C7 at a gap whose deadline string does not parse, on a
non-major facility. -/
theorem deadline_parse_failure_spec_witness :
    deadlineAnalysis exGapBadDate = ("low", 0.5) ∧
    hasParsedDeadline exGapBadDate = false ∧
    (reason_about_gap_severity exGapBadDate exFacMinor).2.2.steps.length =
      (if exFacMinor.is_major_source then 5 else 4) :=
  deadline_parse_failure_spec exGapBadDate exFacMinor (Or.inr rfl)

/-- C9: `add_step` appends a step numbered `len(steps) + 1`; for any
sequence of `add_step` calls on a fresh chain the step numbers are
exactly `1..n` in order, and `to_dict()["steps"]` has one entry per
`add_step` call made before `complete`. -/
theorem chain_step_numbering_spec :
    (∀ (c : ReasoningChain) (t : ReasoningType) (q : ℚ),
      (c.add_step t q).steps = c.steps ++
        [{ step_number := c.steps.length + 1, step_type := t,
           confidence := q }]) ∧
    (∀ (tid : String) (l : List (ReasoningType × ℚ)),
      (applySteps (start_chain tid) l).steps.map ReasoningStep.step_number =
        List.range' 1 l.length) ∧
    (∀ (tid ans : String) (conf : ℚ) (l : List (ReasoningType × ℚ)),
      (((applySteps (start_chain tid) l).complete ans conf).to_dict).steps.length
        = l.length) := by
  refine ⟨fun c t q => rfl, fun tid l => ?_, fun tid ans conf l => ?_⟩
  · rw [applySteps_map_number]
    simp [start_chain]
  · simp [ReasoningChain.to_dict, ReasoningChain.complete, applySteps_length,
      start_chain]

/-- C2 counterexample: for a regulation whose text holds ≥ 3 O&G keywords
and whose citation holds `"40 CFR 60"`, the code's combined score is
`0.6×1.0 + 0.4×0.8 = 0.92`, not the claimed `0.68`. -/
theorem relevance_claimed_score_counterexample :
    3 ≤ (found_keywords exRegKw).length ∧
    strContains exRegKw.citation "40 CFR 60" = true ∧
    keyword_confidence exRegKw = 1 ∧
    cfr_relevance exRegKw = 0.8 ∧
    (reason_about_regulation_relevance exRegKw).2.1 = 0.92 ∧
    (reason_about_regulation_relevance exRegKw).2.1 ≠ 0.68 := by
  have hfk : found_keywords exRegKw =
      ["oil", "gas", "natural gas", "pneumatic", "methane"] := rfl
  have hkc : keyword_confidence exRegKw = 1 := by
    have h : keyword_confidence exRegKw =
        min ((((5 : ℕ) : ℚ)) / 3) 1 := rfl
    rw [h]
    norm_num
  have hsc : (reason_about_regulation_relevance exRegKw).2.1 = 0.92 := by
    have h1 : (reason_about_regulation_relevance exRegKw).2.1 =
        keyword_confidence exRegKw * 0.6 + cfr_relevance exRegKw * 0.4 := rfl
    have hcfr : cfr_relevance exRegKw = 0.8 := rfl
    rw [h1, hkc, hcfr]
    norm_num
  refine ⟨by rw [hfk]; norm_num, rfl, hkc, rfl, hsc, ?_⟩
  rw [hsc]
  norm_num

/-- C2 (amended): `combined_score = 0.6 × keyword_confidence +
0.4 × cfr_relevance`, `is_relevant = (combined_score > 0.3)`, and the
validation step is appended exactly when `is_relevant` holds and
`combined_score < 0.5`; on the example regulation (≥ 3 keywords, part-60
citation) the score is `0.92` — not `0.68` — `is_relevant` is true and no
validation step is appended. -/
theorem relevance_combined_score_spec :
    (∀ reg : Regulation,
      (reason_about_regulation_relevance reg).2.1 =
        keyword_confidence reg * 0.6 + cfr_relevance reg * 0.4 ∧
      (reason_about_regulation_relevance reg).1 =
        decide ((0.3 : ℚ) < combined_score reg) ∧
      countValidationSteps (reason_about_regulation_relevance reg).2.2 =
        (if decide ((0.3 : ℚ) < combined_score reg) &&
            decide (combined_score reg < (0.5 : ℚ)) then 1 else 0)) ∧
    (reason_about_regulation_relevance exRegKw).2.1 = 0.92 ∧
    (reason_about_regulation_relevance exRegKw).1 = true ∧
    countValidationSteps (reason_about_regulation_relevance exRegKw).2.2
      = 0 := by
  have hgen : ∀ reg : Regulation,
      countValidationSteps (reason_about_regulation_relevance reg).2.2 =
        (if decide ((0.3 : ℚ) < combined_score reg) &&
            decide (combined_score reg < (0.5 : ℚ)) then 1 else 0) := by
    intro reg
    by_cases h1 : (0 : ℚ) < cfr_relevance reg <;>
      by_cases h2 : (decide ((0.3 : ℚ) < combined_score reg) &&
          decide (combined_score reg < (0.5 : ℚ))) = true <;>
      simp [reason_about_regulation_relevance, countValidationSteps, h1, h2,
        ReasoningChain.add_step, ReasoningChain.complete, start_chain,
        List.countP_append, List.countP_cons]
  have hsc : (reason_about_regulation_relevance exRegKw).2.1 = 0.92 := by
    have h1 : (reason_about_regulation_relevance exRegKw).2.1 =
        keyword_confidence exRegKw * 0.6 + cfr_relevance exRegKw * 0.4 := rfl
    have hkc : keyword_confidence exRegKw = 1 := by
      have h : keyword_confidence exRegKw =
          min ((((5 : ℕ) : ℚ)) / 3) 1 := rfl
      rw [h]; norm_num
    have hcfr : cfr_relevance exRegKw = 0.8 := rfl
    rw [h1, hkc, hcfr]
    norm_num
  have hcs : combined_score exRegKw = 0.92 := hsc
  refine ⟨fun reg => ⟨rfl, rfl, hgen reg⟩, hsc, ?_, ?_⟩
  · have h1 : (reason_about_regulation_relevance exRegKw).1 =
        decide ((0.3 : ℚ) < combined_score exRegKw) := rfl
    rw [h1, hcs]
    norm_num
  · rw [hgen exRegKw, hcs]
    norm_num

/-- The returned cost confidence as a closed-form sum of its
increments. -/
theorem cost_confidence_formula (g : Gap) (s : List SimilarGap) :
    cost_confidence g s =
      0.7 + (if gapTypeOf g ≠ "unknown" then 0.1 else 0) +
        (if ¬ s.isEmpty then 0.1 else 0) -
        (if 1 < multiplierOf g then 0.05 else 0) := by
  simp only [cost_confidence]
  split_ifs <;> norm_num

/-- C10: the confidence returned by `reason_about_remediation_cost`
always lies in `[0.65, 0.9]` (hence in `[0, 1]`). -/
theorem cost_confidence_bounds_spec (g : Gap) (s : List SimilarGap) :
    (reason_about_remediation_cost g s).2.1 = cost_confidence g s ∧
    13 / 20 ≤ cost_confidence g s ∧ cost_confidence g s ≤ 9 / 10 ∧
    0 ≤ cost_confidence g s ∧ cost_confidence g s ≤ 1 := by
  refine ⟨rfl, ?_, ?_, ?_, ?_⟩ <;>
  · simp only [cost_confidence]
    split_ifs <;> norm_num

/-- C4 counterexample: with one similar gap carrying no cost at all, no
historical data is used (no costs collected, base range unchanged, no
historical analysis step), yet the confidence still gets the `+0.1`
because `similar_gaps` is a non-empty list: the result is `0.8`, not the
`0.7` the claim's "only if historical data was actually used" predicts. -/
theorem cost_confidence_historical_counterexample :
    similarCosts [exSimNoCost] = [] ∧
    blendedBase exGapPlain [exSimNoCost] = (5000, 20000) ∧
    (reason_about_remediation_cost exGapPlain [exSimNoCost]).2.2.steps.map
        ReasoningStep.step_type =
      [ReasoningType.observation, ReasoningType.inference] ∧
    gapTypeOf exGapPlain = "unknown" ∧
    multiplierOf exGapPlain = 1 ∧
    (reason_about_remediation_cost exGapPlain [exSimNoCost]).2.1 = 0.8 ∧
    (reason_about_remediation_cost exGapPlain [exSimNoCost]).2.1 ≠ 0.7 := by
  have hc : (reason_about_remediation_cost exGapPlain [exSimNoCost]).2.1 =
      (0.7 : ℚ) + 0.1 := rfl
  refine ⟨rfl, rfl, by decide, rfl, rfl, ?_, ?_⟩ <;> rw [hc] <;> norm_num

/-- C4 (amended): the cost confidence is
`0.7 (+0.1 if a cost keyword matched) (+0.1 if similar_gaps is a
non-empty list — even when none of its entries carries a usable cost)
(−0.05 if multiplier > 1)`, unclamped; and when usable historical costs
do exist the base range is blended as `(base + avg×0.8)/2`,
`(base_high + avg×1.2)/2`. -/
theorem cost_confidence_increments_spec :
    (∀ (g : Gap) (s : List SimilarGap),
      (reason_about_remediation_cost g s).2.1 =
        0.7 + (if gapTypeOf g ≠ "unknown" then 0.1 else 0) +
          (if ¬ s.isEmpty then 0.1 else 0) -
          (if 1 < multiplierOf g then 0.05 else 0)) ∧
    (∀ (g : Gap) (s : List SimilarGap),
      (similarCosts s).isEmpty = false →
      blendedBase g s =
        (((costBase g).2.1 +
            (similarCosts s).sum / ((similarCosts s).length : ℚ) * 0.8) / 2,
         ((costBase g).2.2 +
            (similarCosts s).sum / ((similarCosts s).length : ℚ) * 1.2) / 2))
    := by
  constructor
  · intro g s
    have h : (reason_about_remediation_cost g s).2.1 =
        cost_confidence g s := rfl
    rw [h]
    exact cost_confidence_formula g s
  · intro g s h
    simp only [blendedBase, h]
    simp

/-- Witness for C4's amended blend clause, at a similar gap with a usable
actual cost. -/
theorem cost_confidence_increments_spec_witness :
    blendedBase exGapPlain [exSimCost] =
      (((costBase exGapPlain).2.1 +
          (similarCosts [exSimCost]).sum /
            ((similarCosts [exSimCost]).length : ℚ) * 0.8) / 2,
       ((costBase exGapPlain).2.2 +
          (similarCosts [exSimCost]).sum /
            ((similarCosts [exSimCost]).length : ℚ) * 1.2) / 2) :=
  cost_confidence_increments_spec.2 exGapPlain [exSimCost] rfl

/-- C6: `estimated_cost = ((base_low + base_high)/2) × multiplier` over
the (possibly blended) base range, the range scales the bases by the
multiplier, and the pneumatic example (title with `"pneumatic"`,
description `"15 controllers"`, no history) gives base `(500, 2000)`,
multiplier 15, range `(7500, 30000)`, cost `18750`, confidence `0.75`. -/
theorem cost_estimate_formula_spec :
    (∀ (g : Gap) (s : List SimilarGap),
      (reason_about_remediation_cost g s).1 =
        (((blendedBase g s).1 + (blendedBase g s).2) / 2) *
          (multiplierOf g : ℚ) ∧
      costRange g s =
        ((blendedBase g s).1 * (multiplierOf g : ℚ),
         (blendedBase g s).2 * (multiplierOf g : ℚ))) ∧
    costBase exGapPneumatic = ("pneumatic", 500, 2000) ∧
    multiplierOf exGapPneumatic = 15 ∧
    costRange exGapPneumatic [] = (7500, 30000) ∧
    (reason_about_remediation_cost exGapPneumatic []).1 = 18750 ∧
    (reason_about_remediation_cost exGapPneumatic []).2.1 = 0.75 := by
  have hr : costRange exGapPneumatic [] =
      ((500 : ℚ) * ((15 : ℕ) : ℚ), (2000 : ℚ) * ((15 : ℕ) : ℚ)) := rfl
  have hcost : (reason_about_remediation_cost exGapPneumatic []).1 =
      (((500 : ℚ) + 2000) / 2) * ((15 : ℕ) : ℚ) := rfl
  have hconf : (reason_about_remediation_cost exGapPneumatic []).2.1 =
      (0.7 : ℚ) + 0.1 - 0.05 := rfl
  refine ⟨fun g s => ⟨rfl, rfl⟩, rfl, rfl, ?_, ?_, ?_⟩
  · rw [hr]
    simp only [Prod.mk.injEq]
    norm_num
  · rw [hcost]; norm_num
  · rw [hconf]; norm_num

/-- C5: `calculate_calibration` returns
`{calibration_factor: 1.0, accuracy: None, samples: 0}` and leaves the
state untouched when no prediction is resolved; otherwise the overall
factor is `overall_accuracy / overall_avg_confidence` (1.0 on a zero
denominator) and is stored on the calibrator; on three resolved 0.9
predictions with 2/3 correct the high bucket reads accuracy 2/3, average
confidence 0.9, calibration 20/27 ≈ 0.741, the overall factor is the
same, and `adjust_confidence(0.9)` then returns 2/3 ≈ 0.667. -/
theorem calibration_calculation_spec :
    (∀ (α : Type) (c : ConfidenceCalibrator α),
      resolvedOf c = [] →
      c.calculate_calibration = (emptyCalibrationResult, c)) ∧
    (∀ (α : Type) (c : ConfidenceCalibrator α),
      resolvedOf c ≠ [] →
      c.calculate_calibration.1.calibration_factor =
        (if 0 < bucketAvgConfidence (resolvedOf c) then
          bucketAccuracy (resolvedOf c) / bucketAvgConfidence (resolvedOf c)
        else 1) ∧
      c.calculate_calibration.2.calibration_factor =
        c.calculate_calibration.1.calibration_factor ∧
      c.calculate_calibration.2.predictions = c.predictions) ∧
    exCalib.calculate_calibration.1 =
      { samples := 3,
        high_accuracy := some (2 / 3),
        high_avg_confidence := some (9 / 10),
        high_calibration := some (20 / 27),
        medium_accuracy := none, medium_avg_confidence := none,
        medium_calibration := none,
        low_accuracy := none, low_avg_confidence := none,
        low_calibration := none,
        accuracy := some (2 / 3), avg_confidence := some (9 / 10),
        calibration_factor := 20 / 27 } ∧
    exCalib.calculate_calibration.2.adjust_confidence 0.9 = 2 / 3 := by
  refine ⟨?_, ?_, ?_, ?_⟩
  · intro α c h
    simp [ConfidenceCalibrator.calculate_calibration, h]
  · intro α c h
    have he : (resolvedOf c).isEmpty = false := by
      cases hres : resolvedOf c with
      | nil => exact absurd hres h
      | cons a t => rfl
    simp only [ConfidenceCalibrator.calculate_calibration, he,
      Bool.false_eq_true, if_false]
    simp [bucketCalibration]
  · norm_num [exCalib, ConfidenceCalibrator.init,
      ConfidenceCalibrator.record_prediction,
      ConfidenceCalibrator.record_outcome, recordOutcomeList, resolvedOf,
      ConfidenceCalibrator.calculate_calibration, bucketCalibration,
      bucketAccuracy, bucketAvgConfidence, List.filter, List.countP_cons,
      List.countP_nil]
    simp only [String.reduceEq, if_false]
    norm_num
  · norm_num [exCalib, ConfidenceCalibrator.init,
      ConfidenceCalibrator.record_prediction,
      ConfidenceCalibrator.record_outcome, recordOutcomeList, resolvedOf,
      ConfidenceCalibrator.calculate_calibration, bucketCalibration,
      bucketAccuracy, bucketAvgConfidence, List.filter, List.countP_cons,
      List.countP_nil, ConfidenceCalibrator.adjust_confidence]
    simp only [String.reduceEq, if_false]
    norm_num

/-- Witness for C5: the empty-calibrator clause at a fresh calibrator,
and the overall-factor clause at the three-prediction example. -/
theorem calibration_calculation_spec_witness :
    (ConfidenceCalibrator.init String).calculate_calibration =
      (emptyCalibrationResult, ConfidenceCalibrator.init String) ∧
    exCalib.calculate_calibration.1.calibration_factor =
      (if 0 < bucketAvgConfidence (resolvedOf exCalib) then
        bucketAccuracy (resolvedOf exCalib) /
          bucketAvgConfidence (resolvedOf exCalib)
      else 1) :=
  ⟨calibration_calculation_spec.1 String (ConfidenceCalibrator.init String)
      rfl,
   (calibration_calculation_spec.2.1 String exCalib (by decide)).1⟩

/-- C8: `record_outcome` rewrites the calibrator's list with
`recordOutcomeList` and touches nothing else; on a list whose first
id-match sits after non-matching records, exactly that record — resolved
or not, no condition on its state is checked — gets
`actual := value` and `correct := (predicted == value)`, the rest are
untouched; with no matching id the list is returned unchanged (silent
no-op). -/
theorem record_outcome_spec {α : Type} [DecidableEq α]
    (prediction_id : String) (v : α) :
    (∀ c : ConfidenceCalibrator α,
      (c.record_outcome prediction_id v).predictions =
        recordOutcomeList prediction_id v c.predictions ∧
      (c.record_outcome prediction_id v).calibration_factor =
        c.calibration_factor) ∧
    (∀ ps : List (Prediction α),
      (∀ p ∈ ps, p.id ≠ prediction_id) →
      recordOutcomeList prediction_id v ps = ps) ∧
    (∀ (l₁ l₂ : List (Prediction α)) (p : Prediction α),
      (∀ q ∈ l₁, q.id ≠ prediction_id) → p.id = prediction_id →
      recordOutcomeList prediction_id v (l₁ ++ p :: l₂) =
        l₁ ++ { p with actual := some v,
                       correct := some (decide (p.predicted = v)) } :: l₂)
    := by
  refine ⟨fun c => ⟨rfl, rfl⟩, ?_, ?_⟩
  · intro ps h
    induction ps with
    | nil => rfl
    | cons p t ih =>
      simp only [recordOutcomeList]
      rw [if_neg (h p (List.mem_cons_self p t)),
        ih fun q hq => h q (List.mem_cons_of_mem p hq)]
  · intro l₁ l₂ p
    induction l₁ with
    | nil =>
      intro _ hp
      simp only [List.nil_append, recordOutcomeList, if_pos hp]
    | cons q t ih =>
      intro h hp
      simp only [List.cons_append, recordOutcomeList, List.append_eq]
      rw [if_neg (h q (List.mem_cons_self q t)),
        ih (fun r hr => h r (List.mem_cons_of_mem q hr)) hp]

/-- Witness for C8: an unknown id leaves the list unchanged; a matching
id after a non-matching record updates exactly the first match (here an
already-resolved record), leaving a later record with the same id
alone. -/
theorem record_outcome_spec_witness :
    recordOutcomeList "zzz" "v" [exPredA] = [exPredA] ∧
    recordOutcomeList "b" "x" ([exPredA] ++ exPredB :: [exPredB]) =
      [exPredA] ++
        { exPredB with
            actual := some "x",
            correct := some (decide (exPredB.predicted = "x")) } ::
          [exPredB] :=
  ⟨(record_outcome_spec "zzz" "v").2.1 [exPredA] (by decide),
   (record_outcome_spec "b" "x").2.2 [exPredA] [exPredB] exPredB
     (by decide) rfl⟩
